import Mathlib

/-!
Verification of the chat session controller of the `filter_waifu` repository.

The repository ships two near-identical React front ends (`front/src/App.jsx`
and a second unnamed copy).  Each holds four pieces of state — the message
transcript, the input buffer, the `isLoading` flag and the `error` string —
and a single `handleSubmit` handler that

  1. returns immediately when the trimmed input is empty or a request is
     already in flight,
  2. otherwise appends the trimmed input as a user message, clears the input
     buffer and the error string, sets `isLoading`, and issues one POST
     request whose body carries the updated transcript, and
  3. on resolution either appends one assistant message built from the parsed
     response body (success) or sets a fixed error string (failure), and in
     both cases clears `isLoading`.

We embed this controller as a state machine: `submitStart` is the synchronous
phase of `handleSubmit` up to and including the `fetch` call, and
`resolveFilter` / `resolveChat` are the two variants' continuations that run
when the request resolves.
-/

namespace FilterWaifu

/-- A chat message `{ role, content }` as stored in the `messages` state. -/
structure Message where
  role : String
  content : String
  deriving DecidableEq, Repr

/-- The whitespace predicate of JS `String.prototype.trim`, modelled by
`Char.isWhitespace`. -/
def jsWs (c : Char) : Bool := c.isWhitespace

/-- JS `String.prototype.trim`: drop whitespace from the front, then from the
back, of the string's character list. -/
def jsTrim (s : String) : String := ⟨(s.data.dropWhile jsWs).rdropWhile jsWs⟩

/-- The component state of either `App` component: `messages`, `input`,
`isLoading`, `error`. -/
structure ChatState where
  messages : List Message
  input : String
  isLoading : Bool
  error : String
  deriving DecidableEq, Repr

/-- A JavaScript value as it can appear in a parsed JSON response field.
`jsNull` stands for both `null` and `undefined` (an absent field reads as
`undefined`); `jsOther` stands for any other non-string non-boolean value. -/
inductive JSVal where
  | jsNull : JSVal
  | jsBool : Bool → JSVal
  | jsStr : String → JSVal
  | jsNum : Int → JSVal
  | jsOther : JSVal
  deriving DecidableEq, Repr

/-- The one network request `handleSubmit` issues: a POST whose JSON body is
`{ "messages": nextMessages }`. -/
structure ChatRequest where
  url : String
  method : String
  body : List Message
  deriving DecidableEq, Repr

/-- `initialMessages` of `front/src/App.jsx` (the filtering variant). -/
def initialMessagesFilter : List Message :=
  [{ role := "assistant", content := "안녕하세요! 내용을 입력하시면 적절한 문장인지 판단해드릴게요." }]

/-- `initialMessages` of the unnamed second copy (the plain chat variant). -/
def initialMessagesChat : List Message :=
  [{ role := "assistant", content := "안녕하세요! 궁금한 내용을 입력하면 바로 답변해드릴게요." }]

/-- Request URL of the filtering variant. -/
def filterUrl : String := "http://localhost:8000/api/chat"

/-- Request URL of the plain chat variant. -/
def chatUrl : String := "/api/chat"

/-- The fixed user-facing error message set in the `catch` block
(identical in both variants). -/
def submitErrorMsg : String := "메시지를 보내지 못했어요. 서버 상태를 확인해주세요."

/-- The fallback reply used when no recognized reply field is present
(identical in both variants). -/
def fallbackReply : String := "답변을 가져오지 못했습니다."

/-- The fixed Korean filtering-notice suffix appended when `is_safe === false`. -/
def filterSuffix : String := " (필터에 의해 부적절한 표현으로 판단되었습니다.)"

/-- Synchronous phase of `handleSubmit`, identical in both variants up to the
request URL: the guard `if (!trimmedInput || isLoading) return`, then
`nextMessages = [...messages, { role: 'user', content: trimmedInput }]`,
`setMessages`, `setInput('')`, `setError('')`, `setIsLoading(true)`, and the
`fetch(url, { method: 'POST', body: JSON.stringify({ messages: nextMessages }) })`
call.  Returns the state after these updates together with the issued request
(`none` when the guard fires and no request is issued). -/
def submitStart (url : String) (s : ChatState) : ChatState × Option ChatRequest :=
  let trimmedInput := jsTrim s.input
  if trimmedInput = "" ∨ s.isLoading = true then (s, none)
  else
    let nextMessages := s.messages ++ [{ role := "user", content := trimmedInput }]
    ({ messages := nextMessages, input := "", error := "", isLoading := true },
      some { url := url, method := "POST", body := nextMessages })

/-- The outcome of the awaited request: `failure` covers a network error, a
non-ok (non-2xx) HTTP status, and a JSON parse error — all of which land in
the same `catch` block — and `success` carries the parsed body. -/
inductive FetchOutcome (β : Type) where
  | failure : FetchOutcome β
  | success : β → FetchOutcome β

/-- Parsed response body as read by the filtering variant: it accesses
`data?.content` (a string per the backend contract; `none` models a nullish
read) and `data?.is_safe` (any JS value; only `=== false` matters). -/
structure FilterResponse where
  content : Option String
  is_safe : JSVal
  deriving DecidableEq, Repr

/-- Parsed response body as read by the plain chat variant: it accesses
`data?.reply` and `data?.message` (strings per the contract; `none` models a
nullish read). -/
structure ChatVariantResponse where
  reply : Option String
  message : Option String
  deriving DecidableEq, Repr

/-- Resolution of the request in the filtering variant
(`front/src/App.jsx`): on success,
`reply = data?.content ?? fallback`, `extra` is the filtering-notice suffix
exactly when `data?.is_safe === false`, and one assistant message
`reply + extra` is appended; on failure the fixed error string is set.  The
`finally` block clears `isLoading` on both paths. -/
def resolveFilter (s : ChatState) : FetchOutcome FilterResponse → ChatState
  | FetchOutcome.success data =>
    let reply := data.content.getD fallbackReply
    let extra := if data.is_safe = JSVal.jsBool false then filterSuffix else ""
    { s with
      messages := s.messages ++ [{ role := "assistant", content := reply ++ extra }],
      isLoading := false }
  | FetchOutcome.failure =>
    { s with error := submitErrorMsg, isLoading := false }

/-- Resolution of the request in the plain chat variant: on success,
`reply = data?.reply ?? data?.message ?? fallback` and one assistant message
is appended; on failure the fixed error string is set.  The `finally` block
clears `isLoading` on both paths. -/
def resolveChat (s : ChatState) : FetchOutcome ChatVariantResponse → ChatState
  | FetchOutcome.success data =>
    let reply := data.reply.getD (data.message.getD fallbackReply)
    { s with
      messages := s.messages ++ [{ role := "assistant", content := reply }],
      isLoading := false }
  | FetchOutcome.failure =>
    { s with error := submitErrorMsg, isLoading := false }

/-- One state transition of either controller: a submission attempt, or the
resolution of an outstanding request in either variant. -/
inductive Step : ChatState → ChatState → Prop where
  | start (url : String) (s : ChatState) : Step s (submitStart url s).1
  | respFilter (s : ChatState) (o : FetchOutcome FilterResponse) : Step s (resolveFilter s o)
  | respChat (s : ChatState) (o : FetchOutcome ChatVariantResponse) : Step s (resolveChat s o)

/-- The initial component state built from an `initialMessages` constant:
empty input, not loading, empty error. -/
def initState (msgs : List Message) : ChatState :=
  { messages := msgs, input := "", isLoading := false, error := "" }

/-- States reachable by the controller from either variant's initial state. -/
inductive Reachable : ChatState → Prop where
  | initFilter : Reachable (initState initialMessagesFilter)
  | initChat : Reachable (initState initialMessagesChat)
  | step (s t : ChatState) : Reachable s → Step s t → Reachable t

/-! ### Basic lemmas about the embedding -/

/-- When the guard fires (empty trimmed input or a request in flight),
`handleSubmit` returns before touching any state and issues no request. -/
theorem submitStart_guard (url : String) (s : ChatState)
    (h : jsTrim s.input = "" ∨ s.isLoading = true) :
    submitStart url s = (s, none) := by
  simp only [submitStart]
  rw [if_pos h]

/-- When the guard does not fire, `handleSubmit` appends the trimmed input as
a user message, clears the input and error, sets `isLoading`, and issues the
one POST request carrying the updated transcript. -/
theorem submitStart_accepted (url : String) (s : ChatState)
    (h1 : jsTrim s.input ≠ "") (h2 : s.isLoading = false) :
    submitStart url s =
      ({ messages := s.messages ++ [{ role := "user", content := jsTrim s.input }],
         input := "", isLoading := true, error := "" },
        some { url := url, method := "POST",
               body := s.messages ++ [{ role := "user", content := jsTrim s.input }] }) := by
  simp only [submitStart]
  rw [if_neg]
  rintro (hc | hc)
  · exact h1 hc
  · rw [h2] at hc
    exact Bool.false_ne_true hc

/-- The first element surviving `dropWhile p` does not satisfy `p`. -/
theorem head_of_dropWhile_not {α : Type} (p : α → Bool) (l : List α) :
    ∀ c cs, l.dropWhile p = c :: cs → p c = false := by
  induction l with
  | nil => intro c cs h; simp [List.dropWhile] at h
  | cons a l ih =>
    intro c cs h
    by_cases hp : p a
    · rw [List.dropWhile_cons, if_pos hp] at h
      exact ih c cs h
    · rw [List.dropWhile_cons, if_neg hp] at h
      cases h
      simpa using hp

/-- Dropping leading whitespace and then trailing whitespace is idempotent on
character lists. -/
theorem trim_chars_idem (l : List Char) :
    (((l.dropWhile jsWs).rdropWhile jsWs).dropWhile jsWs).rdropWhile jsWs =
      (l.dropWhile jsWs).rdropWhile jsWs := by
  have key : ((l.dropWhile jsWs).rdropWhile jsWs).dropWhile jsWs =
      (l.dropWhile jsWs).rdropWhile jsWs := by
    rcases List.dropWhile_suffix (l := (l.dropWhile jsWs).reverse) jsWs with ⟨u, hu⟩
    have hAt : l.dropWhile jsWs = (l.dropWhile jsWs).rdropWhile jsWs ++ u.reverse := by
      have h2 := congrArg List.reverse hu
      simpa [List.rdropWhile] using h2.symm
    rcases ht : (l.dropWhile jsWs).rdropWhile jsWs with _ | ⟨c, cs⟩
    · simp
    · rw [ht] at hAt
      have hA2 : l.dropWhile jsWs = c :: (cs ++ u.reverse) := by
        rw [hAt]; simp
      have hc : jsWs c = false := head_of_dropWhile_not jsWs l c (cs ++ u.reverse) hA2
      rw [List.dropWhile_cons, if_neg (by simp [hc])]
  rw [key, List.rdropWhile_idempotent]

/-- JS `trim` is idempotent: a trimmed string has no leading or trailing
whitespace left to remove. -/
theorem jsTrim_idem (s : String) : jsTrim (jsTrim s) = jsTrim s := by
  apply congrArg String.mk
  exact trim_chars_idem s.data

/-- Every transition appends some (possibly empty) list of messages, each of
which has role `user` or `assistant`, and each user message among them has
trimmed content. -/
theorem step_messages_extend (s t : ChatState) (hst : Step s t) :
    ∃ tail : List Message, t.messages = s.messages ++ tail ∧
      ∀ m ∈ tail, (m.role = "user" ∨ m.role = "assistant") ∧
        (m.role = "user" → jsTrim m.content = m.content) := by
  cases hst with
  | start url s =>
    by_cases hc : jsTrim s.input = "" ∨ s.isLoading = true
    · rw [submitStart_guard url s hc]
      exact ⟨[], by simp, by simp⟩
    · push_neg at hc
      rw [submitStart_accepted url s hc.1 (by simpa using hc.2)]
      refine ⟨[{ role := "user", content := jsTrim s.input }], rfl, ?_⟩
      intro m hm
      simp only [List.mem_singleton] at hm
      subst hm
      exact ⟨Or.inl rfl, fun _ => jsTrim_idem s.input⟩
  | respFilter s o =>
    cases o with
    | failure => exact ⟨[], by simp [resolveFilter], by simp⟩
    | success data =>
      refine ⟨[Message.mk "assistant" (data.content.getD fallbackReply ++
          (if data.is_safe = JSVal.jsBool false then filterSuffix else ""))],
        by simp [resolveFilter], ?_⟩
      intro m hm
      simp only [List.mem_singleton] at hm
      subst hm
      exact ⟨Or.inr rfl, fun h => by simp at h⟩
  | respChat s o =>
    cases o with
    | failure => exact ⟨[], by simp [resolveChat], by simp⟩
    | success data =>
      refine ⟨[Message.mk "assistant" (data.reply.getD (data.message.getD fallbackReply))],
        by simp [resolveChat], ?_⟩
      intro m hm
      simp only [List.mem_singleton] at hm
      subst hm
      exact ⟨Or.inr rfl, fun h => by simp at h⟩

/-! ### Claim theorems -/

/-- C1: for every accepted submission (non-empty trimmed input, not loading)
whose request fails (non-2xx status, network error, or body parse error), the
final transcript is the pre-submission transcript with exactly the user's
message appended (no assistant message), `isLoading` returns to `false`
(idle), and the error state equals the fixed non-empty user-facing message —
in both front-end variants. -/
theorem failed_request_appends_only_user_message (s : ChatState)
    (h1 : jsTrim s.input ≠ "") (h2 : s.isLoading = false) :
    (∀ url : String,
      resolveFilter (submitStart url s).1 FetchOutcome.failure =
        { messages := s.messages ++ [{ role := "user", content := jsTrim s.input }],
          input := "", isLoading := false, error := submitErrorMsg } ∧
      resolveChat (submitStart url s).1 FetchOutcome.failure =
        { messages := s.messages ++ [{ role := "user", content := jsTrim s.input }],
          input := "", isLoading := false, error := submitErrorMsg }) ∧
    submitErrorMsg ≠ "" := by
  constructor
  · intro url
    rw [submitStart_accepted url s h1 h2]
    exact ⟨rfl, rfl⟩
  · decide

/-- C1 witness: a concrete failed cycle from a state with input `" hi "`. -/
theorem failed_request_appends_only_user_message_witness :
    resolveFilter
        (submitStart filterUrl
          { messages := [], input := " hi ", isLoading := false, error := "" }).1
        FetchOutcome.failure =
      { messages := [{ role := "user", content := "hi" }],
        input := "", isLoading := false, error := submitErrorMsg } := by
  have h := ((failed_request_appends_only_user_message
    { messages := [], input := " hi ", isLoading := false, error := "" }
    (by decide) rfl).1 filterUrl).1
  exact h.trans (by decide)

/-- C2: while `isLoading` is set, a submission attempt is a no-op — it leaves
the state unchanged and issues no request — and the only transitions out of a
loading state are that no-op or the resolution of the outstanding request,
which clears `isLoading`. -/
theorem submit_while_awaiting_is_noop (s : ChatState) (h : s.isLoading = true) :
    (∀ url : String, submitStart url s = (s, none)) ∧
    (∀ t : ChatState, Step s t → t = s ∨ t.isLoading = false) := by
  constructor
  · intro url
    exact submitStart_guard url s (Or.inr h)
  · intro t hst
    cases hst with
    | start url => rw [submitStart_guard url s (Or.inr h)]; exact Or.inl rfl
    | respFilter _ o => right; cases o <;> rfl
    | respChat _ o => right; cases o <;> rfl

/-- C2 witness: a concrete loading state is left untouched by `submitStart`. -/
theorem submit_while_awaiting_is_noop_witness :
    submitStart filterUrl { messages := [], input := "hi", isLoading := true, error := "" } =
      ({ messages := [], input := "hi", isLoading := true, error := "" }, none) :=
  (submit_while_awaiting_is_noop
    { messages := [], input := "hi", isLoading := true, error := "" } rfl).1 filterUrl

/-- C3: for every accepted submission whose request succeeds with a parseable
body, the final state appends exactly two messages to the pre-submission
transcript — the user's message, then one assistant message — and returns to
idle, in both variants. -/
theorem successful_cycle_appends_user_then_assistant (s : ChatState)
    (h1 : jsTrim s.input ≠ "") (h2 : s.isLoading = false) :
    (∀ data : FilterResponse, ∃ a : String,
      resolveFilter (submitStart filterUrl s).1 (FetchOutcome.success data) =
        { messages := s.messages ++ [{ role := "user", content := jsTrim s.input },
            { role := "assistant", content := a }],
          input := "", isLoading := false, error := "" }) ∧
    (∀ data : ChatVariantResponse, ∃ a : String,
      resolveChat (submitStart chatUrl s).1 (FetchOutcome.success data) =
        { messages := s.messages ++ [{ role := "user", content := jsTrim s.input },
            { role := "assistant", content := a }],
          input := "", isLoading := false, error := "" }) := by
  constructor
  · intro data
    refine ⟨data.content.getD fallbackReply ++
      (if data.is_safe = JSVal.jsBool false then filterSuffix else ""), ?_⟩
    rw [submitStart_accepted filterUrl s h1 h2]
    simp [resolveFilter]
  · intro data
    refine ⟨data.reply.getD (data.message.getD fallbackReply), ?_⟩
    rw [submitStart_accepted chatUrl s h1 h2]
    simp [resolveChat]

/-- C3 witness: a concrete successful cycle in the filtering variant. -/
theorem successful_cycle_appends_user_then_assistant_witness :
    ∃ a : String,
      resolveFilter (submitStart filterUrl
          { messages := [], input := "hi", isLoading := false, error := "" }).1
        (FetchOutcome.success { content := some "ok", is_safe := JSVal.jsNull }) =
        { messages := [{ role := "user", content := jsTrim "hi" },
            { role := "assistant", content := a }],
          input := "", isLoading := false, error := "" } :=
  (successful_cycle_appends_user_then_assistant
    { messages := [], input := "hi", isLoading := false, error := "" }
    (by decide) rfl).1 { content := some "ok", is_safe := JSVal.jsNull }

/-- C4: in the filtering variant, a successful response with string `content`
yields an assistant message equal to `content` with the filtering-notice
suffix appended exactly when `is_safe` is the boolean `false`; any other
`is_safe` value leaves `content` unchanged, and appending the suffix never
leaves the content unchanged. -/
theorem filter_variant_suffix_iff_flagged (s : ChatState)
    (h1 : jsTrim s.input ≠ "") (h2 : s.isLoading = false) :
    (∀ (c : String) (v : JSVal),
      resolveFilter (submitStart filterUrl s).1
          (FetchOutcome.success { content := some c, is_safe := v }) =
        { messages := s.messages ++ [{ role := "user", content := jsTrim s.input },
            { role := "assistant",
              content := if v = JSVal.jsBool false then c ++ filterSuffix else c }],
          input := "", isLoading := false, error := "" }) ∧
    (∀ c : String, c ++ filterSuffix ≠ c) := by
  constructor
  · intro c v
    rw [submitStart_accepted filterUrl s h1 h2]
    by_cases hv : v = JSVal.jsBool false
    · simp [resolveFilter, hv]
    · simp [resolveFilter, hv]
  · intro c hcc
    have hlen := congrArg String.length hcc
    rw [String.length_append] at hlen
    have hpos : 0 < filterSuffix.length := by decide
    omega

/-- C4 witness: the spec's concrete example — response
`{ "content": "ok", "is_safe": false }` appends `"ok"` plus the suffix. -/
theorem filter_variant_suffix_iff_flagged_witness :
    resolveFilter (submitStart filterUrl
        { messages := [], input := "x", isLoading := false, error := "" }).1
      (FetchOutcome.success { content := some "ok", is_safe := JSVal.jsBool false }) =
      { messages := [{ role := "user", content := "x" },
          { role := "assistant", content := "ok" ++ filterSuffix }],
        input := "", isLoading := false, error := "" } := by
  have h := (filter_variant_suffix_iff_flagged
    { messages := [], input := "x", isLoading := false, error := "" }
    (by decide) rfl).1 "ok" (JSVal.jsBool false)
  exact h.trans (by decide)

/-- C5: in the plain chat variant, the assistant content is the body's
`reply` field when it is non-nullish (regardless of `message`), and otherwise
the `message` field when that one is non-nullish. -/
theorem chat_variant_reply_first_match (s : ChatState)
    (h1 : jsTrim s.input ≠ "") (h2 : s.isLoading = false) :
    (∀ (r : String) (m : Option String),
      resolveChat (submitStart chatUrl s).1
          (FetchOutcome.success { reply := some r, message := m }) =
        { messages := s.messages ++ [{ role := "user", content := jsTrim s.input },
            { role := "assistant", content := r }],
          input := "", isLoading := false, error := "" }) ∧
    (∀ m : String,
      resolveChat (submitStart chatUrl s).1
          (FetchOutcome.success { reply := none, message := some m }) =
        { messages := s.messages ++ [{ role := "user", content := jsTrim s.input },
            { role := "assistant", content := m }],
          input := "", isLoading := false, error := "" }) := by
  constructor
  · intro r m
    rw [submitStart_accepted chatUrl s h1 h2]
    simp [resolveChat]
  · intro m
    rw [submitStart_accepted chatUrl s h1 h2]
    simp [resolveChat]

/-- C5 witness: the spec's concrete example — response `{ "reply": "hi" }`
appends `"hi"` exactly. -/
theorem chat_variant_reply_first_match_witness :
    resolveChat (submitStart chatUrl
        { messages := [], input := "q", isLoading := false, error := "" }).1
      (FetchOutcome.success { reply := some "hi", message := none }) =
      { messages := [{ role := "user", content := "q" },
          { role := "assistant", content := "hi" }],
        input := "", isLoading := false, error := "" } := by
  have h := (chat_variant_reply_first_match
    { messages := [], input := "q", isLoading := false, error := "" }
    (by decide) rfl).1 "hi" none
  exact h.trans (by decide)

/-- C6: submitting while the trimmed input is empty is a no-op in both
variants: the whole state (transcript, `isLoading`, error, input buffer) is
unchanged and no request is issued. -/
theorem empty_input_submit_noop (url : String) (s : ChatState)
    (h : jsTrim s.input = "") :
    submitStart url s = (s, none) :=
  submitStart_guard url s (Or.inl h)

/-- C6 witness: whitespace-only input leaves a concrete state untouched. -/
theorem empty_input_submit_noop_witness :
    submitStart chatUrl
        { messages := [], input := " \t ", isLoading := false, error := "e" } =
      ({ messages := [], input := " \t ", isLoading := false, error := "e" }, none) :=
  empty_input_submit_noop chatUrl
    { messages := [], input := " \t ", isLoading := false, error := "e" } (by decide)

/-- C7: an accepted submission appends exactly one user message (the trimmed
input), clears the input buffer and the error state, sets `isLoading`, and
issues exactly one POST request whose body is the full updated transcript
including the new user message. -/
theorem accepted_submit_state_and_request (url : String) (s : ChatState)
    (h1 : jsTrim s.input ≠ "") (h2 : s.isLoading = false) :
    (submitStart url s).1.messages =
        s.messages ++ [{ role := "user", content := jsTrim s.input }] ∧
    (submitStart url s).1.input = "" ∧
    (submitStart url s).1.error = "" ∧
    (submitStart url s).1.isLoading = true ∧
    (submitStart url s).2 =
      some { url := url, method := "POST",
             body := s.messages ++ [{ role := "user", content := jsTrim s.input }] } := by
  rw [submitStart_accepted url s h1 h2]
  exact ⟨rfl, rfl, rfl, rfl, rfl⟩

/-- C7 witness: the pre-resolution effects at a concrete state, for the
filtering variant's URL. -/
theorem accepted_submit_state_and_request_witness :
    (submitStart filterUrl
        { messages := [], input := " go ", isLoading := false, error := "old" }).2 =
      some { url := filterUrl, method := "POST",
             body := [{ role := "user", content := "go" }] } := by
  have h := (accepted_submit_state_and_request filterUrl
    { messages := [], input := " go ", isLoading := false, error := "old" }
    (by decide) rfl).2.2.2.2
  exact h.trans (by decide)

/-- C8: the transcript is append-only — each variant's `initialMessages`
seeds it with exactly one assistant greeting, every controller transition
extends the transcript on the right (so the previous transcript is an
unchanged prefix and nothing is ever truncated or edited in place), and in
every reachable state each message has role `user` or `assistant`. -/
theorem transcript_append_only :
    initialMessagesFilter.length = 1 ∧
    (∀ m ∈ initialMessagesFilter, m.role = "assistant") ∧
    initialMessagesChat.length = 1 ∧
    (∀ m ∈ initialMessagesChat, m.role = "assistant") ∧
    (∀ s t : ChatState, Step s t → ∃ tail, t.messages = s.messages ++ tail) ∧
    (∀ s : ChatState, Reachable s →
      ∀ m ∈ s.messages, m.role = "user" ∨ m.role = "assistant") := by
  refine ⟨rfl, by decide, rfl, by decide, ?_, ?_⟩
  · intro s t hst
    rcases step_messages_extend s t hst with ⟨tail, htail, _⟩
    exact ⟨tail, htail⟩
  · intro s hs
    induction hs with
    | initFilter => decide
    | initChat => decide
    | step a b _ hst ih =>
      rcases step_messages_extend a b hst with ⟨tail, htail, hrole⟩
      intro m hm
      rw [htail] at hm
      rcases List.mem_append.mp hm with hm | hm
      · exact ih m hm
      · exact (hrole m hm).1

/-- C8 witness: the step and reachability clauses applied to the filtering
variant's initial state. -/
theorem transcript_append_only_witness :
    (∃ tail, (resolveFilter (initState initialMessagesFilter) FetchOutcome.failure).messages =
      (initState initialMessagesFilter).messages ++ tail) ∧
    (∀ m ∈ (initState initialMessagesFilter).messages,
      m.role = "user" ∨ m.role = "assistant") :=
  ⟨transcript_append_only.2.2.2.2.1 _ _
      (Step.respFilter (initState initialMessagesFilter) FetchOutcome.failure),
    transcript_append_only.2.2.2.2.2 _ Reachable.initFilter⟩

/-- C9 counterexample: with body `{ "content": null, "is_safe": false }` (no
recognized reply field) the filtering variant appends the fallback string
*plus* the filtering-notice suffix, not the fallback string alone as the
claim states. -/
theorem nullish_content_fallback_counterexample :
    resolveFilter (submitStart filterUrl
        { messages := [], input := "x", isLoading := false, error := "" }).1
      (FetchOutcome.success { content := none, is_safe := JSVal.jsBool false }) =
      { messages := [{ role := "user", content := "x" },
          { role := "assistant", content := fallbackReply ++ filterSuffix }],
        input := "", isLoading := false, error := "" } ∧
    fallbackReply ++ filterSuffix ≠ fallbackReply := by
  constructor
  · decide
  · decide

/-- C9 (amended): a successful response with no recognized reply field does
not take the error path — an assistant message is still appended, whose
content is the fixed Korean fallback string (with the filtering-notice suffix
appended in the filtering variant when `is_safe` is exactly `false`), the
state returns to idle, and the error stays empty. -/
theorem nullish_content_uses_fallback (s : ChatState)
    (h1 : jsTrim s.input ≠ "") (h2 : s.isLoading = false) :
    (∀ v : JSVal,
      resolveFilter (submitStart filterUrl s).1
          (FetchOutcome.success { content := none, is_safe := v }) =
        { messages := s.messages ++ [{ role := "user", content := jsTrim s.input },
            { role := "assistant",
              content := fallbackReply ++
                (if v = JSVal.jsBool false then filterSuffix else "") }],
          input := "", isLoading := false, error := "" }) ∧
    resolveChat (submitStart chatUrl s).1
        (FetchOutcome.success { reply := none, message := none }) =
      { messages := s.messages ++ [{ role := "user", content := jsTrim s.input },
          { role := "assistant", content := fallbackReply }],
        input := "", isLoading := false, error := "" } := by
  constructor
  · intro v
    rw [submitStart_accepted filterUrl s h1 h2]
    simp [resolveFilter]
  · rw [submitStart_accepted chatUrl s h1 h2]
    simp [resolveChat]

/-- C9 witness: a concrete body with nullish `content` and no `is_safe`
yields exactly the fallback reply, idle status, and empty error. -/
theorem nullish_content_uses_fallback_witness :
    resolveFilter (submitStart filterUrl
        { messages := [], input := "y", isLoading := false, error := "" }).1
      (FetchOutcome.success { content := none, is_safe := JSVal.jsNull }) =
      { messages := [{ role := "user", content := "y" },
          { role := "assistant", content := fallbackReply }],
        input := "", isLoading := false, error := "" } := by
  have h := (nullish_content_uses_fallback
    { messages := [], input := "y", isLoading := false, error := "" }
    (by decide) rfl).1 JSVal.jsNull
  exact h.trans (by decide)

/-- C10: the user message appended by an accepted submission carries the
trimmed input, and in every reachable state every user message in the
transcript is its own trim — it has no leading or trailing whitespace. -/
theorem user_messages_are_trimmed (s : ChatState)
    (h1 : jsTrim s.input ≠ "") (h2 : s.isLoading = false) :
    (∀ url : String, (submitStart url s).1.messages =
      s.messages ++ [{ role := "user", content := jsTrim s.input }]) ∧
    (∀ t : ChatState, Reachable t →
      ∀ m ∈ t.messages, m.role = "user" → jsTrim m.content = m.content) := by
  constructor
  · intro url
    rw [submitStart_accepted url s h1 h2]
  · intro t ht
    induction ht with
    | initFilter => decide
    | initChat => decide
    | step a b _ hst ih =>
      rcases step_messages_extend a b hst with ⟨tail, htail, hrole⟩
      intro m hm hr
      rw [htail] at hm
      rcases List.mem_append.mp hm with hm | hm
      · exact ih m hm hr
      · exact (hrole m hm).2 hr

/-- C10 witness: input `" a b "` is appended as `"a b"` — outer whitespace
stripped, inner whitespace kept. -/
theorem user_messages_are_trimmed_witness :
    (submitStart chatUrl
        { messages := [], input := " a b ", isLoading := false, error := "" }).1.messages =
      [{ role := "user", content := "a b" }] := by
  have h := (user_messages_are_trimmed
    { messages := [], input := " a b ", isLoading := false, error := "" }
    (by decide) rfl).1 chatUrl
  exact h.trans (by decide)

end FilterWaifu
